import Mathlib

/-!
Verification of the NeMo ASR evaluation driver (`nemo_asr/run_eval.py`).

The script is a linear orchestration: it loads a labeled speech dataset,
materializes the in-memory audio arrays to cached `.wav` files, sorts the
samples by descending duration, runs the pretrained model's `transcribe`
operation over the sorted file paths, normalizes the predictions, writes a
results manifest, and reports WER and RTFX.

The embedding below models the script's own logic faithfully; the external
collaborators (dataset preparation, the model's `transcribe`, the text
normalizer, the WER metric, the wall clock) are abstracted as oracle
parameters, since the script only forwards data to and from them.
-/

namespace NemoASR

/-- A dataset sample as the script consumes it: an `id`, the in-memory audio
array (element values abstracted to integers), the sampling rate the dataset
reports for the audio, and the pre-normalized reference transcript given in
the `norm_text` field. -/
structure Sample where
  id : String
  audioArray : List Int
  sampling_rate : Nat
  norm_text : String
deriving DecidableEq, Repr

/-- The command-line arguments of `run_eval.py` that the evaluation logic
reads. -/
structure Args where
  model_id : String
  dataset_path : String
  dataset : String
  split : String
  device : Int
  batch_size : Nat
  max_eval_samples : Option Int
deriving DecidableEq, Repr

/-- The torch device the model is loaded on. -/
inductive Device where
  | cpu : Device
  | cuda : Int → Device
deriving DecidableEq, Repr

/-- Device selection (`run_eval.py` lines 29-32): `torch.device(f"cuda:{args.device}")`
when `args.device >= 0`, else `torch.device("cpu")`. -/
def selectDevice (device : Int) : Device :=
  if device ≥ 0 then Device.cuda device else Device.cpu

/-- The local filesystem, restricted to what the script touches: each path
either holds no file, or holds the audio data and the sample rate that
`soundfile.write` was given for it. -/
def FileSystem : Type := String → Option (List Int × Nat)

/-- Model of `soundfile.write(audio_path, data, samplerate)`: store `data` at
`path` with the declared `samplerate`, leaving every other path unchanged. -/
def soundfile_write (fs : FileSystem) (path : String) (data : List Int)
    (samplerate : Nat) : FileSystem :=
  fun p => if p = path then some (data, samplerate) else fs p

/-- Model of `os.path.exists(path)` over the modeled filesystem. -/
def os_path_exists (fs : FileSystem) (path : String) : Bool :=
  (fs path).isSome

/-- The cache directory `CACHE_DIR = os.path.join(os.getcwd(), "audio_cache",
DATASET_NAME)` (lines 22-25, with `os.path.join` flattened). -/
def cacheDirOf (cwd dataset : String) : String :=
  cwd ++ "/audio_cache/" ++ dataset

/-- The per-sample cache path `os.path.join(CACHE_DIR, f"{id}.wav")`
(line 51). -/
def audioPath (cacheDir : String) (s : Sample) : String :=
  cacheDir ++ "/" ++ s.id ++ ".wav"

/-- One iteration of the loop body of `download_audio_files` (lines 49-55):
write the audio array to the cache path unless a file is already there, and
produce the path together with the duration `len(sample["array"]) / 16_000`. -/
def downloadOne (cacheDir : String) (fs : FileSystem) (s : Sample) :
    FileSystem × String × ℚ :=
  let audio_path := audioPath cacheDir s
  let fs' := if os_path_exists fs audio_path then fs
             else soundfile_write fs audio_path s.audioArray 16000
  (fs', audio_path, (s.audioArray.length : ℚ) / 16000)

/-- The full loop of `download_audio_files` over the samples in dataset
order, threading the filesystem state and accumulating `audio_paths` and
`durations`.  (The `dataset.map(..., batched=True)` call applies the loop
batch by batch in order, which is the same left-to-right traversal.) -/
def processSamples (cacheDir : String) :
    FileSystem → List Sample → FileSystem × List String × List ℚ
  | fs, [] => (fs, [], [])
  | fs, s :: rest =>
    let r := downloadOne cacheDir fs s
    let t := processSamples cacheDir r.1 rest
    (t.1, r.2.1 :: t.2.1, r.2.2 :: t.2.2)

/-- Lines 65-67: `if args.max_eval_samples is not None and args.max_eval_samples > 0:
dataset = dataset.take(args.max_eval_samples)`. -/
def applyMaxEvalSamples (max_eval_samples : Option Int) (dataset : List Sample) :
    List Sample :=
  match max_eval_samples with
  | some n => if n > 0 then dataset.take n.toNat else dataset
  | none => dataset

/-- Line 92: `sorted_indices = sorted(range(len(durations)), key=lambda k:
durations[k], reverse=True)` — the index list of the durations, stably
sorted by descending duration.  (Python's `sorted` is a stable sort;
`insertionSort` under the reflexive descending comparison is also stable,
so it produces the identical index list.) -/
def sorted_indices (durations : List ℚ) : List Nat :=
  List.insertionSort (fun i j => durations.getD j 0 ≤ durations.getD i 0)
    (List.range durations.length)

/-- The empty string, used as the (never reached) out-of-range default when
reindexing a list of texts. -/
def blankText : String := ""

/-- Lines 93-95: reindex `audio_filepaths`, `references` and `durations` by
the one shared `sorted_indices` list.  (Python list indexing would raise out
of range; the indices produced by `sorted_indices` are always in range, so
the `getD` default is never reached.) -/
def sortAllData (audio_filepaths references : List String) (durations : List ℚ) :
    List String × List String × List ℚ :=
  let idx := sorted_indices durations
  (idx.map (fun i => audio_filepaths.getD i blankText),
   idx.map (fun i => references.getD i blankText),
   idx.map (fun i => durations.getD i 0))

/-- Python's `round(x, 2)`: round to two decimal places. -/
def round2 (x : ℚ) : ℚ :=
  (round (x * 100) : ℚ) / 100

/-- The external collaborators the script delegates to, abstracted as
oracles: dataset preparation (`data_utils.prepare_data`), the model's
`transcribe` operation, the text normalizer (`data_utils.normalizer`), the
WER metric (`wer_metric.compute`), and the two `time.time()` readings taken
immediately around the `transcribe` call (lines 98 and 102). -/
structure Oracles where
  prepare_data : List Sample → List Sample
  transcribe : List String → Nat → List String
  normalizer : String → String
  werCompute : List String → List String → ℚ
  time1 : ℚ
  time2 : ℚ

/-- The observable steps of one evaluation run, in execution order, with the
data each externally visible call receives. -/
inductive Event where
  | loadDataset (dataset split : String)
  | materializeAudio
  | sortByDuration
  | transcribeCall (audio_filepaths : List String) (batch_size : Nat)
  | normalizePredictions
  | writeManifestCall (references predictions : List String)
      (model_id dataset_path dataset split : String) (audio_length : List ℚ)
  | printManifestPath
  | werCall (references predictions : List String)
  | printResults (rtfx wer : ℚ)
deriving DecidableEq, Repr

/-- The outcome of a run: the event trace, the final filesystem, and the
values the script computes at the end. -/
structure RunResult where
  trace : List Event
  fs : FileSystem
  predictions : List String
  wer : ℚ
  rtfx : ℚ

/-- The dataset after the optional truncation (lines 65-67) and
`data_utils.prepare_data` (line 69). -/
def preparedData (args : Args) (loaded : List Sample) (O : Oracles) :
    List Sample :=
  O.prepare_data (applyMaxEvalSamples args.max_eval_samples loaded)

/-- The `all_data` dictionary collected from the mapped dataset (lines
80-90): the materialized audio paths, the references taken from `norm_text`
(line 58), and the durations, in dataset order. -/
def allData (cwd : String) (args : Args) (loaded : List Sample) (O : Oracles)
    (fs0 : FileSystem) : List String × List String × List ℚ :=
  let ds1 := preparedData args loaded O
  let m := processSamples (cacheDirOf cwd args.dataset) fs0 ds1
  (m.2.1, ds1.map (fun s => s.norm_text), m.2.2)

/-- The `all_data` series after the shared duration-descending reindexing
(lines 92-95). -/
def sortedData (cwd : String) (args : Args) (loaded : List Sample)
    (O : Oracles) (fs0 : FileSystem) : List String × List String × List ℚ :=
  let a := allData cwd args loaded O fs0
  sortAllData a.1 a.2.1 a.2.2

/-- Shallow embedding of `main` (lines 20-132): load, optionally truncate,
prepare, materialize audio with durations, collect references from
`norm_text`, sort all three series by descending duration, transcribe the
sorted paths in one call timed by the wall clock, normalize the predictions,
write the manifest, print its path, compute WER, compute RTFX, and print the
two results. -/
def runEval (cwd : String) (args : Args) (loaded : List Sample) (O : Oracles)
    (fs0 : FileSystem) : RunResult :=
  let sorted := sortedData cwd args loaded O fs0
  let transcriptions := O.transcribe sorted.1 args.batch_size
  let total_time := O.time2 - O.time1
  let predictions := transcriptions.map O.normalizer
  let wer := round2 (100 * O.werCompute sorted.2.1 predictions)
  let rtfx := round2 (sorted.2.2.sum / total_time)
  { trace := [Event.loadDataset args.dataset args.split,
              Event.materializeAudio,
              Event.sortByDuration,
              Event.transcribeCall sorted.1 args.batch_size,
              Event.normalizePredictions,
              Event.writeManifestCall sorted.2.1 predictions args.model_id
                args.dataset_path args.dataset args.split sorted.2.2,
              Event.printManifestPath,
              Event.werCall sorted.2.1 predictions,
              Event.printResults rtfx wer],
    fs := (processSamples (cacheDirOf cwd args.dataset) fs0
             (preparedData args loaded O)).1,
    predictions := predictions,
    wer := wer,
    rtfx := rtfx }

/-- Recognizer for the `transcribeCall` event. -/
def Event.isTranscribe : Event → Bool
  | .transcribeCall _ _ => true
  | _ => false

/-- Recognizer for the `writeManifestCall` event. -/
def Event.isWriteManifest : Event → Bool
  | .writeManifestCall _ _ _ _ _ _ _ => true
  | _ => false

/-- Recognizer for the `werCall` event. -/
def Event.isWerCall : Event → Bool
  | .werCall _ _ => true
  | _ => false

/-- Recognizer for the `printResults` event. -/
def Event.isPrintResults : Event → Bool
  | .printResults _ _ => true
  | _ => false

/-- Recognizer for the `loadDataset` event. -/
def Event.isLoadDataset : Event → Bool
  | .loadDataset _ _ => true
  | _ => false

/-- Recognizer for the `materializeAudio` event. -/
def Event.isMaterialize : Event → Bool
  | .materializeAudio => true
  | _ => false

/-- Recognizer for the `sortByDuration` event. -/
def Event.isSort : Event → Bool
  | .sortByDuration => true
  | _ => false

/-- Recognizer for the `normalizePredictions` event. -/
def Event.isNormalize : Event → Bool
  | .normalizePredictions => true
  | _ => false

/-! Concrete fixtures, used to evaluate the model on closed inputs. -/

/-- A concrete sample: four audio samples at a dataset rate of 48 kHz. -/
def sampleA : Sample :=
  { id := "a", audioArray := [1, 2, 3, 4], sampling_rate := 48000,
    norm_text := "hello world" }

/-- A second concrete sample with a longer audio array. -/
def sampleB : Sample :=
  { id := "b", audioArray := [5, 6, 7, 8, 9, 10, 11, 12], sampling_rate := 16000,
    norm_text := "good morning" }

/-- The empty filesystem: no cached file exists. -/
def emptyFs : FileSystem := fun _ => none

/-- Concrete command-line arguments. -/
def argsEx : Args :=
  { model_id := "m", dataset_path := "esb/datasets", dataset := "ds",
    split := "test", device := -1, batch_size := 32, max_eval_samples := none }

/-- Concrete oracles: preparation is the identity, the model transcribes
every path to the fixed text "pred", the normalizer is the identity, the
metric returns 17/100, and the transcribe call takes one second of wall
clock. -/
def oEx : Oracles :=
  { prepare_data := fun l => l,
    transcribe := fun ps _ => ps.map (fun _ => "pred"),
    normalizer := fun t => t,
    werCompute := fun _ _ => 17 / 100,
    time1 := 3, time2 := 4 }

/-- A concrete working directory name. -/
def cwdEx : String := "w"

/-- The concrete cache directory of the fixture run. -/
def cacheEx : String := cacheDirOf cwdEx argsEx.dataset

/-- The concrete cache path of `sampleA`. -/
def pathA : String := audioPath cacheEx sampleA

/-- A filesystem already holding a (different) file at the cache path of
`sampleA`, written at a different rate. -/
def fsWithA : FileSystem := soundfile_write emptyFs pathA [9] 8000

/-! Theorems. -/

/-- C10: device selection is decided solely by the sign of the `--device`
argument: every negative value selects the CPU device, and every value
greater than or equal to 0 selects CUDA device `cuda:{device}`. -/
theorem device_selection_by_sign (d : Int) :
    (selectDevice d = Device.cpu ↔ d < 0) ∧
    (selectDevice d = Device.cuda d ↔ 0 ≤ d) := by
  unfold selectDevice
  by_cases h : 0 ≤ d
  · simp [h]
  · simp [h]
    omega

/-- Witness for C10 at the concrete devices `-3` (CPU) and `5` (CUDA). -/
theorem device_selection_by_sign_witness :
    selectDevice (-3) = Device.cpu ∧ selectDevice 5 = Device.cuda 5 :=
  ⟨(device_selection_by_sign (-3)).1.mpr (by decide),
   (device_selection_by_sign 5).2.mpr (by decide)⟩

/-- C9: the dataset is truncated to its first `n` samples exactly when
`--max_eval_samples` is provided with value `n > 0`; a missing argument, a
zero, or a negative value leaves the dataset untouched. -/
theorem max_eval_samples_truncation (m : Option Int) (ds : List Sample) :
    (∀ n : Int, m = some n → 0 < n →
        applyMaxEvalSamples m ds = ds.take n.toNat) ∧
    (∀ n : Int, m = some n → n ≤ 0 → applyMaxEvalSamples m ds = ds) ∧
    (m = none → applyMaxEvalSamples m ds = ds) := by
  refine ⟨fun n hm hn => ?_, fun n hm hn => ?_, fun hm => ?_⟩ <;>
    subst hm <;> simp [applyMaxEvalSamples]
  · intro h
    omega
  · omega

/-- Witness for C9: truncation at `1`, and no truncation at `0` and `none`. -/
theorem max_eval_samples_truncation_witness :
    applyMaxEvalSamples (some 1) [sampleA, sampleB] = [sampleA] ∧
    applyMaxEvalSamples (some 0) [sampleA, sampleB] = [sampleA, sampleB] ∧
    applyMaxEvalSamples none [sampleA, sampleB] = [sampleA, sampleB] := by
  refine ⟨?_, ?_, ?_⟩
  · have h := (max_eval_samples_truncation (some 1) [sampleA, sampleB]).1 1
      rfl (by decide)
    simpa using h
  · exact (max_eval_samples_truncation (some 0) [sampleA, sampleB]).2.1 0
      rfl (by decide)
  · exact (max_eval_samples_truncation none [sampleA, sampleB]).2.2 rfl

/-- C4: for every sample, the materializer writes the sample's audio array
to `CACHE_DIR/{id}.wav` exactly when no file exists at that path; when the
file already exists the whole filesystem is left unchanged; other paths are
never touched; and in both cases the path and the sample's duration are
appended to the accumulated `audio_paths` and `durations`. -/
theorem audio_materializer_cache (cacheDir : String) (fs : FileSystem)
    (s : Sample) (rest : List Sample) :
    (os_path_exists fs (audioPath cacheDir s) = false →
        (downloadOne cacheDir fs s).1 (audioPath cacheDir s)
          = some (s.audioArray, 16000)) ∧
    (os_path_exists fs (audioPath cacheDir s) = true →
        (downloadOne cacheDir fs s).1 = fs) ∧
    (∀ q, q ≠ audioPath cacheDir s →
        (downloadOne cacheDir fs s).1 q = fs q) ∧
    (processSamples cacheDir fs (s :: rest)).2.1
        = audioPath cacheDir s
          :: (processSamples cacheDir (downloadOne cacheDir fs s).1 rest).2.1 ∧
    (processSamples cacheDir fs (s :: rest)).2.2
        = ((s.audioArray.length : ℚ) / 16000)
          :: (processSamples cacheDir (downloadOne cacheDir fs s).1 rest).2.2 := by
  refine ⟨fun h => ?_, fun h => ?_, fun q hq => ?_, rfl, rfl⟩
  · simp [downloadOne, h, soundfile_write]
  · simp [downloadOne, h]
  · by_cases hex : os_path_exists fs (audioPath cacheDir s)
    · simp [downloadOne, hex]
    · simp [downloadOne, hex, soundfile_write, hq]

/-- Witness for C4: on the empty filesystem the file is written; on a
filesystem already holding the cache path, nothing changes; the path is
recorded in both cases. -/
theorem audio_materializer_cache_witness :
    (downloadOne cacheEx emptyFs sampleA).1 pathA
        = some (sampleA.audioArray, 16000) ∧
    (downloadOne cacheEx fsWithA sampleA).1 = fsWithA ∧
    (processSamples cacheEx emptyFs [sampleA]).2.1 = [pathA] ∧
    (processSamples cacheEx fsWithA [sampleA]).2.1 = [pathA] := by
  refine ⟨(audio_materializer_cache cacheEx emptyFs sampleA []).1 rfl,
          (audio_materializer_cache cacheEx fsWithA sampleA []).2.1 ?_,
          ?_, ?_⟩
  · simp [os_path_exists, fsWithA, soundfile_write, pathA]
  · have h := (audio_materializer_cache cacheEx emptyFs sampleA []).2.2.2.1
    simpa using h
  · have h := (audio_materializer_cache cacheEx fsWithA sampleA []).2.2.2.1
    simpa using h

/-- C5: the recorded duration is the audio array's length divided by the
fixed rate 16000, independent of the sampling rate the dataset reports for
the sample, and when a file is written the declared rate is 16000. -/
theorem fixed_sixteen_khz (cacheDir : String) (fs : FileSystem) (s : Sample) :
    (downloadOne cacheDir fs s).2.2 = (s.audioArray.length : ℚ) / 16000 ∧
    (∀ r : Nat, (downloadOne cacheDir fs { s with sampling_rate := r }).2.2
        = (downloadOne cacheDir fs s).2.2) ∧
    (os_path_exists fs (audioPath cacheDir s) = false →
        (downloadOne cacheDir fs s).1 (audioPath cacheDir s)
          = some (s.audioArray, 16000)) := by
  refine ⟨rfl, fun r => rfl, fun h => ?_⟩
  simp [downloadOne, h, soundfile_write]

/-- Witness for C5: `sampleA` has 4 audio samples and a dataset rate of
48 kHz, yet its duration is 4/16000 and its file is written at 16 kHz. -/
theorem fixed_sixteen_khz_witness :
    (downloadOne cacheEx emptyFs sampleA).2.2 = 1 / 4000 ∧
    (downloadOne cacheEx emptyFs sampleA).1 pathA
        = some ([1, 2, 3, 4], 16000) := by
  constructor
  · have h := (fixed_sixteen_khz cacheEx emptyFs sampleA).1
    rw [h]
    norm_num [sampleA]
  · have h := (fixed_sixteen_khz cacheEx emptyFs sampleA).2.2 rfl
    simpa [sampleA] using h

/-- The sorted index list is a permutation of `range n`. -/
theorem sorted_indices_perm (d : List ℚ) :
    (sorted_indices d).Perm (List.range d.length) :=
  List.perm_insertionSort _ _

/-- Every index produced by the sort is in range. -/
theorem sorted_indices_mem (d : List ℚ) (i : ℕ) (hi : i ∈ sorted_indices d) :
    i < d.length :=
  List.mem_range.mp ((sorted_indices_perm d).mem_iff.mp hi)

/-- Along the sorted index list, durations are pairwise non-increasing. -/
theorem sorted_indices_pairwise (d : List ℚ) :
    (sorted_indices d).Pairwise (fun i j => d.getD j 0 ≤ d.getD i 0) := by
  haveI : IsTotal ℕ (fun i j => d.getD j 0 ≤ d.getD i 0) :=
    ⟨fun _ _ => le_total _ _⟩
  haveI : IsTrans ℕ (fun i j => d.getD j 0 ≤ d.getD i 0) :=
    ⟨fun _ _ _ hab hbc => le_trans hbc hab⟩
  exact List.sorted_insertionSort _ _

/-- The durations reindexed by the sort are sorted non-increasingly. -/
theorem sorted_durations_sorted (d : List ℚ) :
    List.Sorted (fun a b : ℚ => b ≤ a)
      ((sorted_indices d).map (fun i => d.getD i 0)) :=
  List.Pairwise.map _ (fun _ _ h => h) (sorted_indices_pairwise d)

/-- Reading every position of a list through `range` reproduces the list. -/
theorem map_getD_range (d : List ℚ) :
    (List.range d.length).map (fun i => d.getD i 0) = d := by
  apply List.ext_getElem
  · simp
  · intro n h1 h2
    simp only [List.getElem_map, List.getElem_range]
    exact List.getD_eq_getElem d 0 h2

/-- The durations reindexed by the sort are a permutation of the original
durations. -/
theorem sorted_durations_perm (d : List ℚ) :
    ((sorted_indices d).map (fun i => d.getD i 0)).Perm d := by
  have h := (sorted_indices_perm d).map (fun i => d.getD i 0)
  rwa [map_getD_range d] at h

/-- The materializer records one path per sample, in dataset order. -/
theorem processSamples_paths (cacheDir : String) (l : List Sample) :
    ∀ fs : FileSystem,
      (processSamples cacheDir fs l).2.1 = l.map (audioPath cacheDir) := by
  induction l with
  | nil => intro fs; rfl
  | cons s rest ih =>
    intro fs
    simp only [processSamples, List.map_cons, List.cons.injEq]
    exact ⟨rfl, ih _⟩

/-- The materializer records one duration per sample, in dataset order. -/
theorem processSamples_durations (cacheDir : String) (l : List Sample) :
    ∀ fs : FileSystem,
      (processSamples cacheDir fs l).2.2
        = l.map (fun s => (s.audioArray.length : ℚ) / 16000) := by
  induction l with
  | nil => intro fs; rfl
  | cons s rest ih =>
    intro fs
    simp only [processSamples, List.map_cons, List.cons.injEq]
    exact ⟨rfl, ih _⟩

/-- C1: after the duration-based sort the durations are in non-increasing
order, and the model's transcribe operation occurs exactly once in the run,
applied to the file paths reindexed by that same sort, with `batch_size`
equal to the `--batch_size` argument. -/
theorem transcribe_once_on_sorted (cwd : String) (args : Args)
    (loaded : List Sample) (O : Oracles) (fs0 : FileSystem) :
    (runEval cwd args loaded O fs0).trace.countP Event.isTranscribe = 1 ∧
    Event.transcribeCall (sortedData cwd args loaded O fs0).1 args.batch_size
      ∈ (runEval cwd args loaded O fs0).trace ∧
    List.Sorted (fun a b : ℚ => b ≤ a)
      (sortedData cwd args loaded O fs0).2.2 := by
  refine ⟨rfl, ?_, ?_⟩
  · exact .tail _ (.tail _ (.tail _ (.head _)))
  · exact sorted_durations_sorted _

/-- Witness for C1 on a concrete two-sample run: one transcribe call, and
the reindexed durations are non-increasing. -/
theorem transcribe_once_on_sorted_witness :
    (runEval cwdEx argsEx [sampleA, sampleB] oEx emptyFs).trace.countP
        Event.isTranscribe = 1 ∧
    List.Sorted (fun a b : ℚ => b ≤ a)
      (sortedData cwdEx argsEx [sampleA, sampleB] oEx emptyFs).2.2 :=
  ⟨(transcribe_once_on_sorted cwdEx argsEx [sampleA, sampleB] oEx emptyFs).1,
   (transcribe_once_on_sorted cwdEx argsEx [sampleA, sampleB] oEx emptyFs).2.2⟩

/-- C2: one shared index permutation reorders the three series, so position
`k` of each sorted series originates from the same input position. -/
theorem sort_shared_permutation (p r : List String) (d : List ℚ) :
    (sorted_indices d).Perm (List.range d.length) ∧
    (sortAllData p r d).1
        = (sorted_indices d).map (fun i => p.getD i blankText) ∧
    (sortAllData p r d).2.1
        = (sorted_indices d).map (fun i => r.getD i blankText) ∧
    (sortAllData p r d).2.2
        = (sorted_indices d).map (fun i => d.getD i 0) ∧
    ∀ k, k < (sorted_indices d).length →
      (sortAllData p r d).1.getD k blankText
          = p.getD ((sorted_indices d).getD k 0) blankText ∧
      (sortAllData p r d).2.1.getD k blankText
          = r.getD ((sorted_indices d).getD k 0) blankText ∧
      (sortAllData p r d).2.2.getD k 0
          = d.getD ((sorted_indices d).getD k 0) 0 := by
  refine ⟨sorted_indices_perm d, rfl, rfl, rfl, fun k hk => ?_⟩
  refine ⟨?_, ?_, ?_⟩ <;>
  · rw [List.getD_eq_getElem _ _ (by simpa [sortAllData] using hk),
        List.getD_eq_getElem _ _ hk]
    simp [sortAllData]

/-- Witness for C2 on two concrete samples with durations 1 and 2: the sort
swaps both series with the one shared index list. -/
theorem sort_shared_permutation_witness :
    (sortAllData [blankText, pathA] [blankText, cwdEx] [1, 2]).1.getD 0
        blankText
      = [blankText, pathA].getD ((sorted_indices [1, 2]).getD 0 0) blankText ∧
    (sortAllData [blankText, pathA] [blankText, cwdEx] [1, 2]).2.1.getD 0
        blankText
      = [blankText, cwdEx].getD ((sorted_indices [1, 2]).getD 0 0) blankText := by
  have h := (sort_shared_permutation [blankText, pathA] [blankText, cwdEx]
      [1, 2]).2.2.2.2 0 (by simp [sorted_indices])
  exact ⟨h.1, h.2.1⟩

/-- C3: the WER metric receives as hypotheses exactly the normalizer applied
to the model's raw transcriptions, and as references only values of the
dataset's pre-normalized `norm_text` field. -/
theorem scorer_gets_normalized_text (cwd : String) (args : Args)
    (loaded : List Sample) (O : Oracles) (fs0 : FileSystem) :
    (runEval cwd args loaded O fs0).trace.countP Event.isWerCall = 1 ∧
    Event.werCall (sortedData cwd args loaded O fs0).2.1
        ((O.transcribe (sortedData cwd args loaded O fs0).1
            args.batch_size).map O.normalizer)
      ∈ (runEval cwd args loaded O fs0).trace ∧
    (∀ pred ∈ (O.transcribe (sortedData cwd args loaded O fs0).1
          args.batch_size).map O.normalizer,
        ∃ t ∈ O.transcribe (sortedData cwd args loaded O fs0).1
            args.batch_size, pred = O.normalizer t) ∧
    (∀ ref ∈ (sortedData cwd args loaded O fs0).2.1,
        ∃ s ∈ preparedData args loaded O, ref = s.norm_text) := by
  refine ⟨rfl, ?_, ?_, ?_⟩
  · exact .tail _ (.tail _ (.tail _ (.tail _ (.tail _ (.tail _ (.tail _
      (.head _)))))))
  · intro pred hp
    obtain ⟨t, ht, hte⟩ := List.mem_map.mp hp
    exact ⟨t, ht, hte.symm⟩
  · intro ref href
    have href' : ref ∈ (sorted_indices
        (processSamples (cacheDirOf cwd args.dataset) fs0
          (preparedData args loaded O)).2.2).map
        (fun i => ((preparedData args loaded O).map
          (fun s => s.norm_text)).getD i blankText) := href
    obtain ⟨i, hi, hie⟩ := List.mem_map.mp href'
    have hilt : i < (preparedData args loaded O).length := by
      have h := sorted_indices_mem _ _ hi
      rwa [processSamples_durations, List.length_map] at h
    rw [List.getD_eq_getElem _ _ (by simpa using hilt),
        List.getElem_map] at hie
    exact ⟨(preparedData args loaded O).get ⟨i, hilt⟩,
      List.get_mem _ _ hilt, hie.symm⟩

/-- Witness for C3 on a concrete run: the metric is invoked exactly once. -/
theorem scorer_gets_normalized_text_witness :
    (runEval cwdEx argsEx [sampleA] oEx emptyFs).trace.countP
        Event.isWerCall = 1 :=
  (scorer_gets_normalized_text cwdEx argsEx [sampleA] oEx emptyFs).1

/-- Refutation of C6 as stated: in a concrete run the manifest write is the
event at trace index 5 and the WER computation the event at index 7, so the
score is not computed before the manifest is written. -/
theorem wer_before_manifest_false :
    (runEval cwdEx argsEx [sampleA] oEx emptyFs).trace.findIdx
        Event.isWriteManifest = 5 ∧
    (runEval cwdEx argsEx [sampleA] oEx emptyFs).trace.findIdx
        Event.isWerCall = 7 ∧
    ¬ ((runEval cwdEx argsEx [sampleA] oEx emptyFs).trace.findIdx
          Event.isWerCall
        < (runEval cwdEx argsEx [sampleA] oEx emptyFs).trace.findIdx
          Event.isWriteManifest) := by
  refine ⟨rfl, rfl, ?_⟩
  rw [show (runEval cwdEx argsEx [sampleA] oEx emptyFs).trace.findIdx
        Event.isWerCall = 7 from rfl,
      show (runEval cwdEx argsEx [sampleA] oEx emptyFs).trace.findIdx
        Event.isWriteManifest = 5 from rfl]
  omega

/-- C6 amended: the stages run in the linear order load → materialize →
sort → transcribe → normalize → manifest write → manifest-path print → WER
score → final print; in particular the manifest is written before the WER
score is computed, and the result print is the last event. -/
theorem stage_order (cwd : String) (args : Args) (loaded : List Sample)
    (O : Oracles) (fs0 : FileSystem) :
    (runEval cwd args loaded O fs0).trace.findIdx Event.isLoadDataset = 0 ∧
    (runEval cwd args loaded O fs0).trace.findIdx Event.isMaterialize = 1 ∧
    (runEval cwd args loaded O fs0).trace.findIdx Event.isSort = 2 ∧
    (runEval cwd args loaded O fs0).trace.findIdx Event.isTranscribe = 3 ∧
    (runEval cwd args loaded O fs0).trace.findIdx Event.isNormalize = 4 ∧
    (runEval cwd args loaded O fs0).trace.findIdx Event.isWriteManifest = 5 ∧
    (runEval cwd args loaded O fs0).trace.findIdx Event.isWerCall = 7 ∧
    (runEval cwd args loaded O fs0).trace.findIdx Event.isPrintResults = 8 ∧
    (runEval cwd args loaded O fs0).trace.getLast?
      = some (Event.printResults (runEval cwd args loaded O fs0).rtfx
          (runEval cwd args loaded O fs0).wer) :=
  ⟨rfl, rfl, rfl, rfl, rfl, rfl, rfl, rfl, rfl⟩

/-- Witness for the amended C6 at a concrete run. -/
theorem stage_order_witness :
    (runEval cwdEx argsEx [sampleB] oEx emptyFs).trace.findIdx
        Event.isLoadDataset = 0 ∧
    (runEval cwdEx argsEx [sampleB] oEx emptyFs).trace.findIdx
        Event.isPrintResults = 8 :=
  ⟨(stage_order cwdEx argsEx [sampleB] oEx emptyFs).1,
   (stage_order cwdEx argsEx [sampleB] oEx emptyFs).2.2.2.2.2.2.2.1⟩

/-- Refutation of C7 as stated: in a concrete one-sample run the single
manifest call receives the references, the normalized predictions and the
durations, and neither of its per-sample text series is the audio file-path
series `[pathA]`; the paths go only to the transcribe call. -/
theorem manifest_receives_no_paths :
    (runEval cwdEx argsEx [sampleA] oEx emptyFs).trace.countP
        Event.isWriteManifest = 1 ∧
    Event.writeManifestCall ["hello world"] ["pred"] argsEx.model_id
        argsEx.dataset_path argsEx.dataset argsEx.split [1 / 4000]
      ∈ (runEval cwdEx argsEx [sampleA] oEx emptyFs).trace ∧
    (sortedData cwdEx argsEx [sampleA] oEx emptyFs).1 = [pathA] ∧
    (["hello world"] : List String) ≠ [pathA] ∧
    (["pred"] : List String) ≠ [pathA] := by
  have hs : sortedData cwdEx argsEx [sampleA] oEx emptyFs
      = ([pathA], ["hello world"], [1 / 4000]) := by
    norm_num [sortedData, allData, preparedData, applyMaxEvalSamples, oEx,
      argsEx, processSamples, downloadOne, os_path_exists, emptyFs,
      sortAllData, sorted_indices, List.insertionSort, sampleA, pathA,
      cacheEx, blankText]
  refine ⟨rfl, ?_, ?_, by decide, by decide⟩
  · have hbase : Event.writeManifestCall
        (sortedData cwdEx argsEx [sampleA] oEx emptyFs).2.1
        ((oEx.transcribe (sortedData cwdEx argsEx [sampleA] oEx emptyFs).1
            argsEx.batch_size).map oEx.normalizer)
        argsEx.model_id argsEx.dataset_path argsEx.dataset argsEx.split
        (sortedData cwdEx argsEx [sampleA] oEx emptyFs).2.2
      ∈ (runEval cwdEx argsEx [sampleA] oEx emptyFs).trace :=
      .tail _ (.tail _ (.tail _ (.tail _ (.tail _ (.head _)))))
    rw [hs] at hbase
    simpa [oEx] using hbase
  · rw [hs]

/-- C7 amended: the manifest writer receives three per-sample series — the
references, the normalized predictions, and the durations (as
`audio_length`) — together with the run metadata, in its unique invocation;
the audio file paths are not among its arguments. -/
theorem manifest_receives_series (cwd : String) (args : Args)
    (loaded : List Sample) (O : Oracles) (fs0 : FileSystem) :
    (runEval cwd args loaded O fs0).trace.countP Event.isWriteManifest = 1 ∧
    Event.writeManifestCall (sortedData cwd args loaded O fs0).2.1
        ((O.transcribe (sortedData cwd args loaded O fs0).1
            args.batch_size).map O.normalizer)
        args.model_id args.dataset_path args.dataset args.split
        (sortedData cwd args loaded O fs0).2.2
      ∈ (runEval cwd args loaded O fs0).trace :=
  ⟨rfl, .tail _ (.tail _ (.tail _ (.tail _ (.tail _ (.head _)))))⟩

/-- Witness for the amended C7 at a concrete run. -/
theorem manifest_receives_series_witness :
    (runEval cwdEx argsEx [sampleB] oEx emptyFs).trace.countP
        Event.isWriteManifest = 1 :=
  (manifest_receives_series cwdEx argsEx [sampleB] oEx emptyFs).1

/-- C8: the run reports exactly two metrics, printed last: WER is the metric
library's value on the references and normalized predictions, times 100,
rounded to two decimals; RTFX is the sum of all sample durations divided by
the wall-clock time spanning only the transcribe call, rounded to two
decimals. -/
theorem reported_metrics (cwd : String) (args : Args) (loaded : List Sample)
    (O : Oracles) (fs0 : FileSystem) :
    (runEval cwd args loaded O fs0).wer
      = round2 (100 * O.werCompute (sortedData cwd args loaded O fs0).2.1
          ((O.transcribe (sortedData cwd args loaded O fs0).1
              args.batch_size).map O.normalizer)) ∧
    (runEval cwd args loaded O fs0).rtfx
      = round2 ((((preparedData args loaded O).map
            (fun s => (s.audioArray.length : ℚ) / 16000)).sum)
          / (O.time2 - O.time1)) ∧
    (runEval cwd args loaded O fs0).trace.getLast?
      = some (Event.printResults (runEval cwd args loaded O fs0).rtfx
          (runEval cwd args loaded O fs0).wer) ∧
    (runEval cwd args loaded O fs0).trace.countP Event.isPrintResults = 1 := by
  refine ⟨rfl, ?_, rfl, rfl⟩
  have h2 : ((sortedData cwd args loaded O fs0).2.2).Perm
      ((processSamples (cacheDirOf cwd args.dataset) fs0
        (preparedData args loaded O)).2.2) :=
    sorted_durations_perm _
  have h3 := h2.sum_eq
  rw [processSamples_durations] at h3
  show round2 (((sortedData cwd args loaded O fs0).2.2).sum
      / (O.time2 - O.time1)) = _
  rw [h3]

/-- Witness for C8: in the concrete run the metric value 17/100 is reported
as 17, and the tiny 1/4000-second dataset over a one-second transcribe call
rounds to an RTFX of 0. -/
theorem reported_metrics_witness :
    (runEval cwdEx argsEx [sampleA] oEx emptyFs).wer = 17 ∧
    (runEval cwdEx argsEx [sampleA] oEx emptyFs).rtfx = 0 := by
  have h := reported_metrics cwdEx argsEx [sampleA] oEx emptyFs
  constructor
  · rw [h.1]
    norm_num [oEx, round2, round_eq]
  · rw [h.2.1]
    norm_num [oEx, preparedData, applyMaxEvalSamples, argsEx, sampleA,
      round2, round_eq]

end NemoASR
